import Mathlib

/-!
Verification of the MCP JSON-RPC dispatch server
(`src/backend/src/routes/mcp_routes.py`) against its specification.

The development shallowly embeds the module: JSON values become an
inductive `JVal`, the Pydantic models become structures, exceptions become
`Except`, and the async handlers become pure functions.  Collaborators that
live outside the module (the token store, the tool registry contents, the
clock) are passed in as parameters, mirroring how the code consumes them.
-/

namespace MCP

/-- JSON values, modelling the `Any` payloads flowing through the handler.
Objects are association lists (first binding wins on lookup, as for a
Python `dict` built from unique keys). -/
inductive JVal where
  | null : JVal
  | bool (b : Bool) : JVal
  | num (n : Int) : JVal
  | str (s : String) : JVal
  | arr (xs : List JVal) : JVal
  | obj (fields : List (String × JVal)) : JVal

/-- Python truthiness (`if not x`) restricted to the JSON values the
handler can receive: `None`, `False`, `0`, `""`, `[]`, `{}` are falsy. -/
def JVal.truthy : JVal → Bool
  | .null => false
  | .bool b => b
  | .num n => n != 0
  | .str s => s != ""
  | .arr xs => !xs.isEmpty
  | .obj fs => !fs.isEmpty

/-- `d.get(k)` on a Python dict: the value bound to `k`, or `None`. -/
def dictGet (fields : List (String × JVal)) (k : String) : JVal :=
  match fields.find? (fun p => p.1 == k) with
  | some p => p.2
  | none => .null

/-- `d.get(k, default)` on a Python dict. -/
def dictGetD (fields : List (String × JVal)) (k : String) (dflt : JVal) : JVal :=
  match fields.find? (fun p => p.1 == k) with
  | some p => p.2
  | none => dflt

/-- `str(v)` for an f-string interpolation: only the rendering of string
values (`f"{s}" = s`) matters to the claims; other cases give a plain
rendering. -/
def JVal.pyStr : JVal → String
  | .null => "None"
  | .bool true => "True"
  | .bool false => "False"
  | .num n => toString n
  | .str s => s
  | .arr _ => "[...]"
  | .obj _ => "\x7b...\x7d"

/-- `s.split(":")[0]` in Python: the maximal prefix of `s` before the
first `':'` (the whole string when there is no `':'`). -/
def prefixBeforeColon (s : String) : String :=
  String.mk (s.toList.takeWhile (fun c => c != ':'))

/-- `":" in s` in Python. -/
def containsColon (s : String) : Bool :=
  s.toList.contains ':'

/-- `MCPHandler._has_scope` (mcp_routes.py lines 238-256): admin wildcard,
then exact match, then prefix wildcard, else false. -/
def hasScope (scopes : List String) (required_scope : String) : Bool :=
  if scopes.contains "*" then
    true
  else if scopes.contains required_scope then
    true
  else if containsColon required_scope then
    scopes.contains (prefixBeforeColon required_scope ++ ":*")
  else
    false

/-- The scope-matching algorithm exactly as the specification words it
(spec section 4.1), for comparison with `hasScope`. -/
def satisfiesSpec (grantedScopes : List String) (requiredScope : String) : Bool :=
  if grantedScopes.contains "*" then true
  else if grantedScopes.contains requiredScope then true
  else if containsColon requiredScope then
    if grantedScopes.contains (prefixBeforeColon requiredScope ++ ":*") then true
    else false
  else false

/-- JSON-RPC 2.0 error codes (mcp_routes.py lines 33-37). -/
def JSONRPC_PARSE_ERROR : Int := -32700

def JSONRPC_INVALID_REQUEST : Int := -32600

def JSONRPC_METHOD_NOT_FOUND : Int := -32601

def JSONRPC_INVALID_PARAMS : Int := -32602

def JSONRPC_INTERNAL_ERROR : Int := -32603

/-- Custom MCP error codes (mcp_routes.py lines 40-41). -/
def MCP_AUTH_FAILED : Int := -32001

def MCP_AUTH_MISSING_SCOPE : Int := -32002

/-- A JSON-RPC request id: string or integer (`Union[str, int]`). -/
inductive RpcId where
  | str (s : String)
  | num (n : Int)
deriving DecidableEq

/-- `JSONRPCError` Pydantic model: code, message, optional data. -/
structure JSONRPCError where
  code : Int
  message : String
  data : Option JVal

/-- `JSONRPCResponse` Pydantic model: jsonrpc tag, optional result,
optional error, optional id (all of `result`, `error`, `id` default to
`None` in the source). -/
structure JSONRPCResponse where
  jsonrpc : String
  result : Option JVal
  error : Option JSONRPCError
  id : Option RpcId

/-- `make_error_response` (mcp_routes.py lines 67-77). -/
def make_error_response (code : Int) (message : String) (data : Option JVal)
    (request_id : Option RpcId) : JSONRPCResponse :=
  ⟨"2.0", none, some ⟨code, message, data⟩, request_id⟩

/-- `make_success_response` (mcp_routes.py lines 80-85).  Every caller
passes a handler's return value, which is always a dict, so `result` is a
`JVal` here. -/
def make_success_response (result : JVal) (request_id : Option RpcId) : JSONRPCResponse :=
  ⟨"2.0", some result, none, request_id⟩

/-- `MCPError` exception: JSON-RPC code, message, optional data. -/
structure MCPError where
  code : Int
  message : String
  data : Option JVal

/-- `ToolResult` (from `src.tools.base`, consumed at lines 205-224):
success flag, result payload, optional error string. -/
structure ToolResult where
  success : Bool
  data : JVal
  error : Option String

/-- Outcome of `await tool.execute(...)`: a returned `ToolResult`, or an
exception carrying `str(e)`. -/
inductive ExecOutcome where
  | ok (r : ToolResult)
  | exc (msg : String)

/-- A registered tool, as the handler consumes it: a name (registry key),
an optional `required_scope` attribute (`none` models the attribute being
absent, so that `getattr(tool, "required_scope", "*")` defaults), its MCP
definition dict (as returned by `get_mcp_definitions`, always carrying a
`"name"` key), and its `execute` behaviour on a given arguments value. -/
structure Tool where
  name : String
  required_scope : Option String
  definition : List (String × JVal)
  execute : JVal → ExecOutcome

/-- `getattr(tool, "required_scope", "*")`. -/
def Tool.requiredScopeAttr (t : Tool) : String :=
  t.required_scope.getD "*"

/-- `self._tool_registry.get(name)`: lookup by name; only a string value
can match a registry key. -/
def registryGet (reg : List Tool) (name : JVal) : Option Tool :=
  match name with
  | .str s => reg.find? (fun t => t.name == s)
  | _ => none

mutual

/-- `json.dumps(v, default=str)` with the default `", "` / `": "`
separators (string escaping is not modelled; no claim depends on it). -/
def JVal.dumps : JVal → String
  | .null => "null"
  | .bool true => "true"
  | .bool false => "false"
  | .num n => toString n
  | .str s => "\"" ++ s ++ "\""
  | .arr xs => "[" ++ dumpsList xs ++ "]"
  | .obj fs => "\x7b" ++ dumpsObj fs ++ "\x7d"

/-- Serialize a JSON array's elements, comma separated. -/
def dumpsList : List JVal → String
  | [] => ""
  | [x] => JVal.dumps x
  | x :: xs => JVal.dumps x ++ ", " ++ dumpsList xs

/-- Serialize a JSON object's fields, comma separated. -/
def dumpsObj : List (String × JVal) → String
  | [] => ""
  | [(k, v)] => "\"" ++ k ++ "\": " ++ JVal.dumps v
  | (k, v) :: fs => "\"" ++ k ++ "\": " ++ JVal.dumps v ++ ", " ++ dumpsObj fs

end

/-- `MCPHandler._handle_initialize` (lines 139-150): fixed metadata. -/
def handleInit : JVal :=
  .obj [("protocolVersion", .str "2024-11-05"),
        ("serverInfo", .obj [("name", .str "ontos-mcp-server"),
                             ("version", .str "1.0.0")]),
        ("capabilities", .obj [("tools", .obj [])])]

/-- `MCPHandler._handle_initialized` (lines 152-154): empty dict. -/
def handleInited : JVal :=
  .obj []

/-- `MCPHandler._handle_ping` (lines 156-158); `now` stands for
`datetime.utcnow().isoformat()`, supplied by the clock collaborator. -/
def handlePing (now : String) : JVal :=
  .obj [("pong", .bool true), ("timestamp", .str now)]

/-- `MCPHandler._handle_tools_list` (lines 160-173): every registered
tool's definition whose required scope the token's scopes satisfy; the
rest are silently omitted.  (Registry definitions always carry a `"name"`
key, which the loop uses to re-fetch the tool.) -/
def handle_tools_list (reg : List Tool) (scopes : List String) : JVal :=
  let all_tools := reg.map (fun t => t.definition)
  let filtered_tools := all_tools.filter (fun tool_def =>
    match registryGet reg (dictGet tool_def "name") with
    | some tool => hasScope scopes tool.requiredScopeAttr
    | none => false)
  .obj [("tools", .arr (filtered_tools.map .obj))]

/-- `result.error or "Unknown error"` (line 220): Python `or` falls back
on a falsy (absent or empty) error string. -/
def declaredErrorText (e : Option String) : String :=
  match e with
  | some s => if s == "" then "Unknown error" else s
  | none => "Unknown error"

/-- The MCP content payload built for a tool outcome: a single text
content block plus the `isError` flag (lines 204-236). -/
def toolPayload (text : String) (isErr : Bool) : JVal :=
  .obj [("content", .arr [.obj [("type", .str "text"), ("text", .str text)]]),
        ("isError", .bool isErr)]

/-- The `try` block of lines 200-236: invoke `tool.execute` and format
the outcome as MCP content — success data serialized with `isError=false`,
a declared failure's error string with `isError=true`, and a raised
exception caught into a failure description with `isError=true`. -/
def executeAndFormat (tool : Tool) (tool_args : JVal) : JVal :=
  match tool.execute tool_args with
  | .ok r =>
    if r.success then
      toolPayload (JVal.dumps r.data) false
    else
      toolPayload (declaredErrorText r.error) true
  | .exc msg =>
    toolPayload ("Tool execution failed: " ++ msg) true

/-- `MCPHandler._handle_tools_call` (lines 175-236): validate the `name`
parameter by truthiness, resolve the tool, check scope, then execute,
catching execution exceptions into an `isError` payload. -/
def handle_tools_call (reg : List Tool) (scopes : List String)
    (params : List (String × JVal)) : Except MCPError JVal :=
  let tool_name := dictGet params "name"
  let tool_args := dictGetD params "arguments" (.obj [])
  if !tool_name.truthy then
    .error ⟨JSONRPC_INVALID_PARAMS, "Missing tool name", none⟩
  else
    match registryGet reg tool_name with
    | none => .error ⟨JSONRPC_METHOD_NOT_FOUND, "Tool not found: " ++ tool_name.pyStr, none⟩
    | some tool =>
      let required_scope := tool.requiredScopeAttr
      if !hasScope scopes required_scope then
        .error ⟨MCP_AUTH_MISSING_SCOPE,
                "Missing required scope: " ++ required_scope,
                some (.obj [("required_scope", .str required_scope),
                            ("token_scopes", .arr (scopes.map .str))])⟩
      else
        .ok (executeAndFormat tool tool_args)

/-- The five entries of the fixed handler table (lines 110-116). -/
inductive Method where
  | init
  | inited
  | ping
  | toolsList
  | toolsCall

/-- `handlers.get(method)` (lines 110-118): resolve a method name against
the fixed five-entry table. -/
def findHandler : String → Option Method
  | "initialize" => some .init
  | "notifications/initialized" => some .inited
  | "ping" => some .ping
  | "tools/list" => some .toolsList
  | "tools/call" => some .toolsCall
  | _ => none

/-- What a handler invocation can produce: a result dict, a raised
`MCPError`, or any other exception (carrying `str(e)`). -/
inductive HandlerErr where
  | mcp (e : MCPError)
  | other (msg : String)

/-- Run the resolved handler (lines 139-236) on the request params. -/
def runHandler (reg : List Tool) (scopes : List String) (now : String)
    (m : Method) (params : List (String × JVal)) : Except HandlerErr JVal :=
  match m with
  | .init => .ok handleInit
  | .inited => .ok handleInited
  | .ping => .ok (handlePing now)
  | .toolsList => .ok (handle_tools_list reg scopes)
  | .toolsCall => (handle_tools_call reg scopes params).mapError .mcp

/-- The `try`/`except MCPError`/`except Exception` wrapper of
`MCPHandler.handle` (lines 126-137): a normal return becomes a success
envelope, a raised `MCPError` is mapped to its declared code, message and
data, and any other exception is mapped to the internal-error code with
the stringified cause. -/
def dispatchOutcome (outcome : Except HandlerErr JVal)
    (request_id : Option RpcId) : JSONRPCResponse :=
  match outcome with
  | .ok result => make_success_response result request_id
  | .error (.mcp e) => make_error_response e.code e.message e.data request_id
  | .error (.other msg) =>
    make_error_response JSONRPC_INTERNAL_ERROR ("Internal error: " ++ msg) none request_id

/-- `JSONRPCRequest` Pydantic model (lines 44-49). -/
structure JSONRPCRequest where
  jsonrpc : String
  method : String
  params : Option (List (String × JVal))
  id : Option RpcId

/-- `MCPHandler.handle` (lines 104-137): resolve the method against the
fixed table (unknown → method-not-found), else run the handler under the
exception wrapper.  Every branch echoes the request's id. -/
def handle (reg : List Tool) (scopes : List String) (now : String)
    (req : JSONRPCRequest) : JSONRPCResponse :=
  let params := req.params.getD []
  let request_id := req.id
  match findHandler req.method with
  | none =>
    make_error_response JSONRPC_METHOD_NOT_FOUND
      ("Method not found: " ++ req.method) none request_id
  | some m => dispatchOutcome (runHandler reg scopes now m params) request_id

/-- `MCPTokenInfo` as the handler consumes it: display name and scope
strings. -/
structure MCPTokenInfo where
  name : String
  scopes : List String

/-- The outcome of `await request.json()`: a parsed JSON value, or a
parse failure carrying `str(e)`. -/
inductive Body where
  | malformed (msg : String)
  | parsed (v : JVal)

/-- `JSONRPCRequest(**body)` (lines 330-331): Pydantic validation of the
request shape.  The body must be a dict; `jsonrpc` defaults to `"2.0"`
and must otherwise be a string; `method` is a required string; `params`
is an optional dict (absent or `null` become `None`); `id` is an optional
string or integer.  Any violation raises, modelled as `none`. -/
def parseRpcRequest (body : JVal) : Option JSONRPCRequest :=
  match body with
  | .obj fields => do
    let jsonrpc ←
      match fields.find? (fun p => p.1 == "jsonrpc") with
      | none => some "2.0"
      | some p => match p.2 with | .str s => some s | _ => none
    let method ←
      match fields.find? (fun p => p.1 == "method") with
      | some p => match p.2 with | .str s => some s | _ => none
      | none => none
    let params ←
      match fields.find? (fun p => p.1 == "params") with
      | none => some none
      | some p =>
        match p.2 with
        | .null => some none
        | .obj fs => some (some fs)
        | _ => none
    let id ←
      match fields.find? (fun p => p.1 == "id") with
      | none => some none
      | some p =>
        match p.2 with
        | .null => some none
        | .str s => some (some (RpcId.str s))
        | .num n => some (some (RpcId.num n))
        | _ => none
    pure ⟨jsonrpc, method, params, id⟩
  | _ => none

/-- `if not x_api_key` (line 298): the header is missing or empty. -/
def headerFalsy (x_api_key : Option String) : Bool :=
  match x_api_key with
  | none => true
  | some s => s == ""

/-- The `mcp_handler` route (lines 284-354): validate the API key header,
validate the token against the store (`validate` stands for
`MCPTokensManager.validate_token`), parse the body, validate the RPC
shape, then dispatch.  The trailing commit/rollback touches only the
store and never alters the computed response, so it is not part of the
response function.  The auth and parse/shape failure branches build their
envelopes directly (`JSONRPCResponse(error=...)`), with every other field
left at its default; Pydantic's validation message in the invalid-request
branch is abstracted to a fixed string, which no claim depends on. -/
def mcp_handler (reg : List Tool) (validate : String → Option MCPTokenInfo)
    (now : String) (x_api_key : Option String) (body : Body) : JSONRPCResponse :=
  if headerFalsy x_api_key then
    ⟨"2.0", none, some ⟨MCP_AUTH_FAILED, "Missing X-API-Key header", none⟩, none⟩
  else
    match validate ((x_api_key).getD "") with
    | none =>
      ⟨"2.0", none, some ⟨MCP_AUTH_FAILED, "Invalid or expired API key", none⟩, none⟩
    | some token_info =>
      match body with
      | .malformed m =>
        ⟨"2.0", none, some ⟨JSONRPC_PARSE_ERROR, "Failed to parse JSON: " ++ m, none⟩, none⟩
      | .parsed v =>
        match parseRpcRequest v with
        | none =>
          ⟨"2.0", none, some ⟨JSONRPC_INVALID_REQUEST, "Invalid request: validation error", none⟩, none⟩
        | some rpc => handle reg token_info.scopes now rpc

/-- An envelope with exactly one of `result` / `error` set. -/
def exclusiveEnvelope (r : JSONRPCResponse) : Prop :=
  (r.result.isSome = true ∧ r.error.isSome = false) ∨
  (r.result.isSome = false ∧ r.error.isSome = true)

/-- A sample registered tool whose `execute` raises. -/
def boomTool : Tool :=
  ⟨"boom", some "data:read", [("name", .str "boom")], fun _ => .exc "kaput"⟩

/-- A sample registered tool whose `execute` succeeds. -/
def okTool : Tool :=
  ⟨"ok", some "data:read", [("name", .str "ok")], fun _ => .ok ⟨true, .null, none⟩⟩

/-- A sample registered tool with no `required_scope` attribute. -/
def bareTool : Tool :=
  ⟨"bare", none, [("name", .str "bare")], fun _ => .ok ⟨true, .null, none⟩⟩

/-- A shape-valid ping request body carrying id 42. -/
def body42 : JVal :=
  .obj [("jsonrpc", .str "2.0"), ("method", .str "ping"), ("id", .num 42)]

/-- A body that parses as JSON but fails shape validation (`method`
missing) while carrying an extractable id 7. -/
def bodyNoMethod : JVal :=
  .obj [("jsonrpc", .str "2.0"), ("id", .num 7)]

/-- Error envelopes set `error` and leave `result` unset. -/
theorem exclusive_make_error (code : Int) (message : String) (data : Option JVal)
    (id : Option RpcId) : exclusiveEnvelope (make_error_response code message data id) :=
  Or.inr ⟨rfl, rfl⟩

/-- Success envelopes set `result` and leave `error` unset. -/
theorem exclusive_make_success (result : JVal) (id : Option RpcId) :
    exclusiveEnvelope (make_success_response result id) :=
  Or.inl ⟨rfl, rfl⟩

/-- Every outcome the dispatch wrapper maps has an exclusive envelope. -/
theorem exclusive_dispatchOutcome (o : Except HandlerErr JVal) (id : Option RpcId) :
    exclusiveEnvelope (dispatchOutcome o id) := by
  match o with
  | .ok r => exact exclusive_make_success r id
  | .error (.mcp e) => exact exclusive_make_error e.code e.message e.data id
  | .error (.other msg) =>
    exact exclusive_make_error JSONRPC_INTERNAL_ERROR ("Internal error: " ++ msg) none id

/-- Every envelope the dispatcher produces is exclusive. -/
theorem exclusive_handle (reg : List Tool) (scopes : List String) (now : String)
    (req : JSONRPCRequest) : exclusiveEnvelope (handle reg scopes now req) := by
  unfold handle
  cases h : findHandler req.method with
  | none => exact exclusive_make_error JSONRPC_METHOD_NOT_FOUND _ none req.id
  | some m => exact exclusive_dispatchOutcome _ req.id

/-- Every envelope the full pipeline produces is exclusive. -/
theorem exclusive_mcp_handler (reg : List Tool) (validate : String → Option MCPTokenInfo)
    (now : String) (x_api_key : Option String) (body : Body) :
    exclusiveEnvelope (mcp_handler reg validate now x_api_key body) := by
  unfold mcp_handler
  split
  · exact Or.inr ⟨rfl, rfl⟩
  · split
    · exact Or.inr ⟨rfl, rfl⟩
    · rename_i token_info _
      match body with
      | .malformed m => exact Or.inr ⟨rfl, rfl⟩
      | .parsed v =>
        cases hp : parseRpcRequest v with
        | none => simp only [hp]; exact Or.inr ⟨rfl, rfl⟩
        | some rpc => simp only [hp]; exact exclusive_handle reg token_info.scopes now rpc

/-- The dispatch wrapper echoes the request id. -/
theorem dispatchOutcome_id (o : Except HandlerErr JVal) (id : Option RpcId) :
    (dispatchOutcome o id).id = id := by
  match o with
  | .ok r => rfl
  | .error (.mcp e) => rfl
  | .error (.other msg) => rfl

/-- The dispatcher echoes the request id in every branch. -/
theorem handle_id_echo (reg : List Tool) (scopes : List String) (now : String)
    (req : JSONRPCRequest) : (handle reg scopes now req).id = req.id := by
  unfold handle
  cases h : findHandler req.method with
  | none => rfl
  | some m => exact dispatchOutcome_id _ req.id

/-- Claim C1: the scope matcher returns true iff the granted set holds `"*"`,
or holds the required scope exactly, or the required scope has a `':'`
and the granted set holds the scope's first-`':'` prefix followed by
`":*"`, checked in that order; in particular a grant of `"data:*"`
satisfies any required scope `"data:" ++ suffix`. -/
theorem C1_scope_matcher (scopes : List String) (required suffix : String) :
    hasScope scopes required = satisfiesSpec scopes required ∧
    (scopes.contains "data:*" = true →
      hasScope scopes ("data:" ++ suffix) = true) := by
  constructor
  · unfold hasScope satisfiesSpec
    split_ifs <;> simp_all
  · intro h
    have hcolon : containsColon ("data:" ++ suffix) = true := by
      simp [containsColon, String.toList, String.data_append]
    have hpre : prefixBeforeColon ("data:" ++ suffix) = "data" := by
      simp [prefixBeforeColon, String.toList, String.data_append]
    have happ : ("data" : String) ++ ":*" = "data:*" := rfl
    simp [hasScope, hcolon, hpre, happ, h]
    exact Or.inr (Or.inr (by simpa using h))

/-- Claim C1 witness: a concrete grant set `["data:*"]` with required scopes
`"other"` and `"data:read"`. -/
theorem C1_scope_matcher_witness :
    (["data:*"].contains "data:*" = true) ∧
    (hasScope ["data:*"] "other" = satisfiesSpec ["data:*"] "other") ∧
    (hasScope ["data:*"] ("data:" ++ "read") = true) :=
  ⟨by decide, (C1_scope_matcher ["data:*"] "other" "read").1,
   (C1_scope_matcher ["data:*"] "other" "read").2 (by decide)⟩

/-- Claim C2: when a tools/call passes the name, lookup and scope checks and
the tool's execute raises, the dispatcher returns a JSON-RPC success
envelope (no error field) whose payload is a text content block with
`isError = true`; the exception never surfaces as an RPC-level error. -/
theorem C2_exec_exception_is_payload_error
    (reg : List Tool) (scopes : List String) (now : String)
    (params : List (String × JVal)) (id : Option RpcId) (tool : Tool) (msg : String)
    (hname : (dictGet params "name").truthy = true)
    (hlookup : registryGet reg (dictGet params "name") = some tool)
    (hscope : hasScope scopes tool.requiredScopeAttr = true)
    (hexec : tool.execute (dictGetD params "arguments" (.obj [])) = .exc msg) :
    handle reg scopes now ⟨"2.0", "tools/call", some params, id⟩ =
      make_success_response (toolPayload ("Tool execution failed: " ++ msg) true) id ∧
    (handle reg scopes now ⟨"2.0", "tools/call", some params, id⟩).error = none := by
  have hf : findHandler "tools/call" = some Method.toolsCall := rfl
  have hcall : handle_tools_call reg scopes params =
      .ok (toolPayload ("Tool execution failed: " ++ msg) true) := by
    simp [handle_tools_call, hname, hlookup, hscope, executeAndFormat, hexec]
  constructor
  · simp [handle, hf, runHandler, hcall, dispatchOutcome, Except.mapError]
  · simp [handle, hf, runHandler, hcall, dispatchOutcome, Except.mapError,
      make_success_response]

/-- C2 witness: a concrete registry with a raising tool. -/
theorem C2_exec_exception_is_payload_error_witness :
    ((dictGet [("name", JVal.str "boom")] "name").truthy = true) ∧
    (registryGet [boomTool] (dictGet [("name", JVal.str "boom")] "name") = some boomTool) ∧
    (hasScope ["data:read"] boomTool.requiredScopeAttr = true) ∧
    (boomTool.execute (dictGetD [("name", JVal.str "boom")] "arguments" (.obj [])) =
      .exc "kaput") ∧
    (handle [boomTool] ["data:read"] "T" ⟨"2.0", "tools/call",
        some [("name", JVal.str "boom")], some (RpcId.num 1)⟩ =
      make_success_response (toolPayload ("Tool execution failed: " ++ "kaput") true)
        (some (RpcId.num 1)) ∧
     (handle [boomTool] ["data:read"] "T" ⟨"2.0", "tools/call",
        some [("name", JVal.str "boom")], some (RpcId.num 1)⟩).error = none) :=
  ⟨rfl, rfl, rfl, rfl,
   C2_exec_exception_is_payload_error [boomTool] ["data:read"] "T"
     [("name", JVal.str "boom")] (some (RpcId.num 1)) boomTool "kaput" rfl rfl rfl rfl⟩

/-- Claim C5: tools/call validates sequentially — a falsy `name` yields -32602
for every registry and scope set (so before any lookup or scope check);
an unknown tool yields -32601; an insufficient scope yields -32002
carrying the required scope and the token's scopes; and only once all
three checks pass is the tool executed. -/
theorem C5_tools_call_check_order (reg : List Tool) (scopes : List String)
    (params : List (String × JVal)) (tool : Tool) :
    ((dictGet params "name").truthy = false →
      handle_tools_call reg scopes params =
        .error ⟨JSONRPC_INVALID_PARAMS, "Missing tool name", none⟩) ∧
    ((dictGet params "name").truthy = true →
      registryGet reg (dictGet params "name") = none →
      handle_tools_call reg scopes params =
        .error ⟨JSONRPC_METHOD_NOT_FOUND,
                "Tool not found: " ++ (dictGet params "name").pyStr, none⟩) ∧
    ((dictGet params "name").truthy = true →
      registryGet reg (dictGet params "name") = some tool →
      hasScope scopes tool.requiredScopeAttr = false →
      handle_tools_call reg scopes params =
        .error ⟨MCP_AUTH_MISSING_SCOPE,
                "Missing required scope: " ++ tool.requiredScopeAttr,
                some (.obj [("required_scope", .str tool.requiredScopeAttr),
                            ("token_scopes", .arr (scopes.map .str))])⟩) ∧
    ((dictGet params "name").truthy = true →
      registryGet reg (dictGet params "name") = some tool →
      hasScope scopes tool.requiredScopeAttr = true →
      handle_tools_call reg scopes params =
        .ok (executeAndFormat tool (dictGetD params "arguments" (.obj [])))) := by
  refine ⟨?_, ?_, ?_, ?_⟩
  · intro h
    simp [handle_tools_call, h]
  · intro h1 h2
    simp [handle_tools_call, h1, h2]
  · intro h1 h2 h3
    simp [handle_tools_call, h1, h2, h3]
  · intro h1 h2 h3
    simp [handle_tools_call, h1, h2, h3]

/-- Claim C5 witness: the four branches at concrete inputs — absent name,
unknown tool, insufficient scope, and a passing call. -/
theorem C5_tools_call_check_order_witness :
    ((dictGet [] "name").truthy = false ∧
     handle_tools_call [okTool] ["data:read"] [] =
       .error ⟨JSONRPC_INVALID_PARAMS, "Missing tool name", none⟩) ∧
    ((dictGet [("name", JVal.str "ghost")] "name").truthy = true ∧
     registryGet [okTool] (dictGet [("name", JVal.str "ghost")] "name") = none ∧
     handle_tools_call [okTool] ["data:read"] [("name", JVal.str "ghost")] =
       .error ⟨JSONRPC_METHOD_NOT_FOUND,
               "Tool not found: " ++ (dictGet [("name", JVal.str "ghost")] "name").pyStr,
               none⟩) ∧
    (hasScope [] okTool.requiredScopeAttr = false ∧
     handle_tools_call [okTool] [] [("name", JVal.str "ok")] =
       .error ⟨MCP_AUTH_MISSING_SCOPE,
               "Missing required scope: " ++ okTool.requiredScopeAttr,
               some (.obj [("required_scope", .str okTool.requiredScopeAttr),
                           ("token_scopes", .arr (([] : List String).map .str))])⟩) ∧
    (hasScope ["data:read"] okTool.requiredScopeAttr = true ∧
     handle_tools_call [okTool] ["data:read"] [("name", JVal.str "ok")] =
       .ok (executeAndFormat okTool
             (dictGetD [("name", JVal.str "ok")] "arguments" (.obj [])))) :=
  ⟨⟨rfl, (C5_tools_call_check_order [okTool] ["data:read"] [] okTool).1 rfl⟩,
   ⟨rfl, rfl,
    (C5_tools_call_check_order [okTool] ["data:read"] [("name", JVal.str "ghost")]
      okTool).2.1 rfl rfl⟩,
   ⟨rfl, (C5_tools_call_check_order [okTool] [] [("name", JVal.str "ok")]
      okTool).2.2.1 rfl rfl rfl⟩,
   ⟨rfl, (C5_tools_call_check_order [okTool] ["data:read"] [("name", JVal.str "ok")]
      okTool).2.2.2 rfl rfl rfl⟩⟩

/-- Claim C6: the dispatcher is total at its boundary — an unknown method
yields -32601 independently of the registry, scopes and clock (so no tool
lookup or side effect), a raised `MCPError` maps to its declared code,
message and data, and any other exception maps to -32603 with the
stringified cause; every outcome becomes an envelope. -/
theorem C6_dispatcher_totality (reg reg2 : List Tool) (scopes scopes2 : List String)
    (now now2 : String) (req : JSONRPCRequest) (id : Option RpcId)
    (e : MCPError) (msg : String)
    (hunknown : findHandler req.method = none) :
    handle reg scopes now req =
      make_error_response JSONRPC_METHOD_NOT_FOUND
        ("Method not found: " ++ req.method) none req.id ∧
    handle reg scopes now req = handle reg2 scopes2 now2 req ∧
    dispatchOutcome (.error (.mcp e)) id = make_error_response e.code e.message e.data id ∧
    dispatchOutcome (.error (.other msg)) id =
      make_error_response JSONRPC_INTERNAL_ERROR ("Internal error: " ++ msg) none id := by
  refine ⟨?_, ?_, rfl, rfl⟩
  · simp [handle, hunknown]
  · simp [handle, hunknown]

/-- Claim C6 witness: the unknown method `"foo/bar"` and concrete error
outcomes. -/
theorem C6_dispatcher_totality_witness :
    (findHandler "foo/bar" = none) ∧
    (handle [okTool] ["data:read"] "T" ⟨"2.0", "foo/bar", none, some (RpcId.num 3)⟩ =
       make_error_response JSONRPC_METHOD_NOT_FOUND ("Method not found: " ++ "foo/bar")
         none (some (RpcId.num 3)) ∧
     handle [okTool] ["data:read"] "T" ⟨"2.0", "foo/bar", none, some (RpcId.num 3)⟩ =
       handle [] [] "U" ⟨"2.0", "foo/bar", none, some (RpcId.num 3)⟩ ∧
     dispatchOutcome (.error (.mcp ⟨JSONRPC_INVALID_PARAMS, "Missing tool name", none⟩))
         (some (RpcId.num 3)) =
       make_error_response JSONRPC_INVALID_PARAMS "Missing tool name" none
         (some (RpcId.num 3)) ∧
     dispatchOutcome (.error (.other "oops")) (some (RpcId.num 3)) =
       make_error_response JSONRPC_INTERNAL_ERROR ("Internal error: " ++ "oops") none
         (some (RpcId.num 3))) :=
  ⟨rfl,
   C6_dispatcher_totality [okTool] [] ["data:read"] [] "T" "U"
     ⟨"2.0", "foo/bar", none, some (RpcId.num 3)⟩ (some (RpcId.num 3))
     ⟨JSONRPC_INVALID_PARAMS, "Missing tool name", none⟩ "oops" rfl⟩

/-- Claim C7: every envelope the codec builds and every envelope the pipeline
emits has exactly one of `result` / `error` set — never both, never
neither. -/
theorem C7_envelope_mutual_exclusivity (code : Int) (message : String)
    (data : Option JVal) (result : JVal) (id : Option RpcId) (reg : List Tool)
    (validate : String → Option MCPTokenInfo) (now : String)
    (x_api_key : Option String) (body : Body) :
    exclusiveEnvelope (make_error_response code message data id) ∧
    exclusiveEnvelope (make_success_response result id) ∧
    exclusiveEnvelope (mcp_handler reg validate now x_api_key body) :=
  ⟨exclusive_make_error code message data id,
   exclusive_make_success result id,
   exclusive_mcp_handler reg validate now x_api_key body⟩

/-- Claim C10: a tools/call whose params bind `"name"` to the empty string is
rejected with -32602 exactly as if the name were absent, for every
registry and scope set — presence is tested by truthiness, so no lookup
or scope check happens. -/
theorem C10_empty_name_is_missing (reg : List Tool) (scopes : List String)
    (now : String) (id : Option RpcId) (params paramsNoName : List (String × JVal))
    (h : dictGet params "name" = .str "")
    (h0 : dictGet paramsNoName "name" = .null) :
    handle_tools_call reg scopes params =
      .error ⟨JSONRPC_INVALID_PARAMS, "Missing tool name", none⟩ ∧
    handle_tools_call reg scopes params = handle_tools_call reg scopes paramsNoName ∧
    handle reg scopes now ⟨"2.0", "tools/call", some params, id⟩ =
      make_error_response JSONRPC_INVALID_PARAMS "Missing tool name" none id := by
  have hf : findHandler "tools/call" = some Method.toolsCall := rfl
  have ht : (dictGet params "name").truthy = false := by rw [h]; rfl
  have ht0 : (dictGet paramsNoName "name").truthy = false := by rw [h0]; rfl
  have hcall : handle_tools_call reg scopes params =
      .error ⟨JSONRPC_INVALID_PARAMS, "Missing tool name", none⟩ := by
    simp [handle_tools_call, ht]
  refine ⟨hcall, ?_, ?_⟩
  · rw [hcall]
    simp [handle_tools_call, ht0]
  · simp [handle, hf, runHandler, hcall, dispatchOutcome, Except.mapError]

/-- Claim C10 witness: `params = [("name", "")]` versus absent name. -/
theorem C10_empty_name_is_missing_witness :
    (dictGet [("name", JVal.str "")] "name" = JVal.str "") ∧
    (dictGet [] "name" = JVal.null) ∧
    (handle_tools_call [okTool] ["data:read"] [("name", JVal.str "")] =
       .error ⟨JSONRPC_INVALID_PARAMS, "Missing tool name", none⟩ ∧
     handle_tools_call [okTool] ["data:read"] [("name", JVal.str "")] =
       handle_tools_call [okTool] ["data:read"] [] ∧
     handle [okTool] ["data:read"] "T"
         ⟨"2.0", "tools/call", some [("name", JVal.str "")], some (RpcId.num 9)⟩ =
       make_error_response JSONRPC_INVALID_PARAMS "Missing tool name" none
         (some (RpcId.num 9))) :=
  ⟨rfl, rfl,
   C10_empty_name_is_missing [okTool] ["data:read"] "T" (some (RpcId.num 9))
     [("name", JVal.str "")] [] rfl rfl⟩

/-- Claim C3 counterexample: a tool with no `required_scope` attribute is NOT
open access — for the token scopes `["data:read"]` (no `"*"`), the tool
is omitted from tools/list and tools/call on it fails with -32002,
because the attribute default `"*"` only matches a granted `"*"`. -/
theorem C3_counterexample_no_scope_attr_not_open :
    bareTool.required_scope = none ∧
    hasScope ["data:read"] bareTool.requiredScopeAttr = false ∧
    handle_tools_call [bareTool] ["data:read"] [("name", JVal.str "bare")] =
      .error ⟨MCP_AUTH_MISSING_SCOPE, "Missing required scope: *",
              some (.obj [("required_scope", .str "*"),
                          ("token_scopes", .arr [.str "data:read"])])⟩ ∧
    handle_tools_list [bareTool] ["data:read"] = .obj [("tools", .arr [])] :=
  ⟨rfl, rfl, rfl, rfl⟩

/-- Claim C3 amended: a tool with no declared `required_scope` attribute is
treated as requiring the literal scope `"*"`; it appears in tools/list
and passes the tools/call scope check exactly when the token's scopes
contain the global wildcard `"*"`, and is otherwise rejected with
-32002. -/
theorem C3_amended_no_scope_attr_requires_star
    (reg : List Tool) (scopes : List String) (params : List (String × JVal)) (t : Tool)
    (ht : t.required_scope = none)
    (hdef : dictGet t.definition "name" = .str t.name) :
    t.requiredScopeAttr = "*" ∧
    hasScope scopes t.requiredScopeAttr = scopes.contains "*" ∧
    handle_tools_list [t] scopes =
      .obj [("tools", .arr (if scopes.contains "*" then [.obj t.definition] else []))] ∧
    ((dictGet params "name").truthy = true →
      registryGet reg (dictGet params "name") = some t →
      scopes.contains "*" = false →
      handle_tools_call reg scopes params =
        .error ⟨MCP_AUTH_MISSING_SCOPE, "Missing required scope: *",
                some (.obj [("required_scope", .str "*"),
                            ("token_scopes", .arr (scopes.map .str))])⟩) := by
  have hattr : t.requiredScopeAttr = "*" := by
    simp [Tool.requiredScopeAttr, ht]
  have hcc : containsColon "*" = false := rfl
  have hstar : hasScope scopes "*" = scopes.contains "*" := by
    by_cases hc : "*" ∈ scopes <;> simp [hasScope, hcc, hc]
  have hreg : registryGet [t] (dictGet t.definition "name") = some t := by
    rw [hdef]
    simp [registryGet, List.find?]
  refine ⟨hattr, hattr ▸ hstar, ?_, ?_⟩
  · by_cases hc : "*" ∈ scopes <;>
      simp [handle_tools_list, hreg, hattr, hasScope, hc, hcc]
  · intro h1 h2 h3
    have h3m : "*" ∉ scopes := by simpa using h3
    simp [handle_tools_call, h1, h2, hattr, hasScope, hcc, h3m]

/-- Claim C3 amended witness: the bare tool with scopes `["data:read"]`. -/
theorem C3_amended_no_scope_attr_requires_star_witness :
    (bareTool.required_scope = none) ∧
    (dictGet bareTool.definition "name" = JVal.str bareTool.name) ∧
    (bareTool.requiredScopeAttr = "*" ∧
     hasScope ["data:read"] bareTool.requiredScopeAttr =
       (["data:read"] : List String).contains "*" ∧
     handle_tools_list [bareTool] ["data:read"] =
       .obj [("tools", .arr (if (["data:read"] : List String).contains "*"
                             then [.obj bareTool.definition] else []))] ∧
     ((dictGet [("name", JVal.str "bare")] "name").truthy = true →
       registryGet [bareTool] (dictGet [("name", JVal.str "bare")] "name") = some bareTool →
       (["data:read"] : List String).contains "*" = false →
       handle_tools_call [bareTool] ["data:read"] [("name", JVal.str "bare")] =
         .error ⟨MCP_AUTH_MISSING_SCOPE, "Missing required scope: *",
                 some (.obj [("required_scope", .str "*"),
                             ("token_scopes", .arr (["data:read"].map .str))])⟩)) :=
  ⟨rfl, rfl,
   C3_amended_no_scope_attr_requires_star [bareTool] ["data:read"]
     [("name", JVal.str "bare")] bareTool rfl rfl⟩

/-- Claim C4 counterexample: a missing credential and an invalid credential
both yield code -32001 with no id, but with different messages, so the
rejection causes are distinguishable from the response. -/
theorem C4_counterexample_distinct_messages :
    mcp_handler [] (fun _ => none) "T" none (.parsed .null) =
      ⟨"2.0", none, some ⟨MCP_AUTH_FAILED, "Missing X-API-Key header", none⟩, none⟩ ∧
    mcp_handler [] (fun _ => none) "T" (some "k") (.parsed .null) =
      ⟨"2.0", none, some ⟨MCP_AUTH_FAILED, "Invalid or expired API key", none⟩, none⟩ ∧
    ("Missing X-API-Key header" : String) ≠ "Invalid or expired API key" :=
  ⟨rfl, rfl, by decide⟩

/-- Claim C4 amended: every credential rejection yields code -32001 with no
id; an invalid and an expired token share one message (the store
collapses them, so they are indistinguishable), but a missing or empty
header carries a different message, so a caller can tell a missing
credential apart from an invalid-or-expired one. -/
theorem C4_amended_auth_failure_uniform_code
    (reg : List Tool) (validate : String → Option MCPTokenInfo) (now : String)
    (key : Option String) (body : Body) (k : String)
    (hmiss : headerFalsy key = true)
    (hk : headerFalsy (some k) = false)
    (hv : validate k = none) :
    mcp_handler reg validate now key body =
      ⟨"2.0", none, some ⟨MCP_AUTH_FAILED, "Missing X-API-Key header", none⟩, none⟩ ∧
    mcp_handler reg validate now (some k) body =
      ⟨"2.0", none, some ⟨MCP_AUTH_FAILED, "Invalid or expired API key", none⟩, none⟩ := by
  constructor
  · simp [mcp_handler, hmiss]
  · simp [mcp_handler, hk, hv]

/-- Claim C4 amended witness: a missing header and a rejected key. -/
theorem C4_amended_auth_failure_uniform_code_witness :
    (headerFalsy none = true) ∧
    (headerFalsy (some "bad") = false) ∧
    ((fun _ : String => (none : Option MCPTokenInfo)) "bad" = none) ∧
    (mcp_handler [] (fun _ => none) "T" none (.malformed "x") =
       ⟨"2.0", none, some ⟨MCP_AUTH_FAILED, "Missing X-API-Key header", none⟩, none⟩ ∧
     mcp_handler [] (fun _ => none) "T" (some "bad") (.malformed "x") =
       ⟨"2.0", none, some ⟨MCP_AUTH_FAILED, "Invalid or expired API key", none⟩, none⟩) :=
  ⟨rfl, rfl, rfl,
   C4_amended_auth_failure_uniform_code [] (fun _ => none) "T" none
     (.malformed "x") "bad" rfl rfl rfl⟩

/-- Claim C8 counterexample: an authentication failure returns an envelope
with no id although the body parses, passes shape validation and carries
id 42 — so id can be absent outside parse/shape failures. -/
theorem C8_counterexample_auth_drops_id :
    (parseRpcRequest body42).map JSONRPCRequest.id = some (some (RpcId.num 42)) ∧
    mcp_handler [] (fun _ => none) "T" (some "k") (.parsed body42) =
      ⟨"2.0", none, some ⟨MCP_AUTH_FAILED, "Invalid or expired API key", none⟩, none⟩ :=
  ⟨rfl, rfl⟩

/-- Claim C8 amended: every request that reaches the dispatcher gets its id
echoed (absent id echoed as absent), for success and error outcomes
alike; the pipeline omits the id exactly on its pre-dispatch failures —
missing credential, rejected credential, parse failure, or shape
failure — in particular an authentication failure omits the id even when
the body carries one. -/
theorem C8_amended_id_roundtrip
    (reg : List Tool) (scopes : List String) (now : String) (req : JSONRPCRequest)
    (validate : String → Option MCPTokenInfo) (key : Option String) (body : Body)
    (k m : String) (info : MCPTokenInfo) (v : JVal)
    (hmiss : headerFalsy key = true)
    (hk : headerFalsy (some k) = false) :
    (handle reg scopes now req).id = req.id ∧
    (mcp_handler reg validate now key body).id = none ∧
    (validate k = none → (mcp_handler reg validate now (some k) body).id = none) ∧
    (validate k = some info →
      (mcp_handler reg validate now (some k) (.malformed m)).id = none) ∧
    (validate k = some info → parseRpcRequest v = none →
      (mcp_handler reg validate now (some k) (.parsed v)).id = none) ∧
    (validate k = some info → parseRpcRequest v = some req →
      (mcp_handler reg validate now (some k) (.parsed v)).id = req.id) := by
  refine ⟨handle_id_echo reg scopes now req, ?_, ?_, ?_, ?_, ?_⟩
  · simp [mcp_handler, hmiss]
  · intro hv
    simp [mcp_handler, hk, hv]
  · intro hv
    simp [mcp_handler, hk, hv]
  · intro hv hp
    simp [mcp_handler, hk, hv, hp]
  · intro hv hp
    simp [mcp_handler, hk, hv, hp, handle_id_echo]

/-- Claim C8 amended witness: the dispatcher echoes id 42; the pipeline drops
the id on a missing header, a rejected key, a malformed body, a
shape-invalid body, and echoes it on the happy path. -/
theorem C8_amended_id_roundtrip_witness :
    (headerFalsy none = true) ∧
    (headerFalsy (some "k") = false) ∧
    ((handle [] [] "T" ⟨"2.0", "ping", none, some (RpcId.num 42)⟩).id =
      some (RpcId.num 42)) ∧
    ((mcp_handler [] (fun _ => none) "T" none (.parsed body42)).id = none) ∧
    ((mcp_handler [] (fun _ => none) "T" (some "k") (.parsed body42)).id = none) ∧
    ((mcp_handler [] (fun _ => some ⟨"tok", ["*"]⟩) "T" (some "k")
        (.malformed "oops")).id = none) ∧
    ((mcp_handler [] (fun _ => some ⟨"tok", ["*"]⟩) "T" (some "k")
        (.parsed bodyNoMethod)).id = none) ∧
    ((mcp_handler [] (fun _ => some ⟨"tok", ["*"]⟩) "T" (some "k")
        (.parsed body42)).id = some (RpcId.num 42)) :=
  ⟨rfl, rfl,
   (C8_amended_id_roundtrip [] [] "T" ⟨"2.0", "ping", none, some (RpcId.num 42)⟩
     (fun _ => none) none (.parsed body42) "k" "oops" ⟨"tok", ["*"]⟩ body42
     rfl rfl).1,
   (C8_amended_id_roundtrip [] [] "T" ⟨"2.0", "ping", none, some (RpcId.num 42)⟩
     (fun _ => none) none (.parsed body42) "k" "oops" ⟨"tok", ["*"]⟩ body42
     rfl rfl).2.1,
   (C8_amended_id_roundtrip [] [] "T" ⟨"2.0", "ping", none, some (RpcId.num 42)⟩
     (fun _ => none) none (.parsed body42) "k" "oops" ⟨"tok", ["*"]⟩ body42
     rfl rfl).2.2.1 rfl,
   (C8_amended_id_roundtrip [] [] "T" ⟨"2.0", "ping", none, some (RpcId.num 42)⟩
     (fun _ => some ⟨"tok", ["*"]⟩) none (.parsed body42) "k" "oops" ⟨"tok", ["*"]⟩
     bodyNoMethod rfl rfl).2.2.2.1 rfl,
   (C8_amended_id_roundtrip [] [] "T" ⟨"2.0", "ping", none, some (RpcId.num 42)⟩
     (fun _ => some ⟨"tok", ["*"]⟩) none (.parsed body42) "k" "oops" ⟨"tok", ["*"]⟩
     bodyNoMethod rfl rfl).2.2.2.2.1 rfl rfl,
   (C8_amended_id_roundtrip [] [] "T" ⟨"2.0", "ping", none, some (RpcId.num 42)⟩
     (fun _ => some ⟨"tok", ["*"]⟩) none (.parsed body42) "k" "oops" ⟨"tok", ["*"]⟩
     body42 rfl rfl).2.2.2.2.2 rfl rfl⟩

/-- Claim C9 counterexample: with a valid token, a body that parses but fails
shape validation is rejected with -32600, yet the response carries no id
even though id 7 is extractable from the body. -/
theorem C9_counterexample_invalid_request_no_id :
    dictGet [("jsonrpc", JVal.str "2.0"), ("id", JVal.num 7)] "id" = JVal.num 7 ∧
    parseRpcRequest bodyNoMethod = none ∧
    mcp_handler [] (fun _ => some ⟨"tok", ["*"]⟩) "T" (some "k") (.parsed bodyNoMethod) =
      ⟨"2.0", none,
       some ⟨JSONRPC_INVALID_REQUEST, "Invalid request: validation error", none⟩,
       none⟩ :=
  ⟨rfl, rfl, rfl⟩

/-- Claim C9 amended: an authenticated request whose body parses but fails
shape validation yields code -32600 with an empty result — but the
response never carries an id, even when one is extractable from the
body. -/
theorem C9_amended_invalid_shape_code
    (reg : List Tool) (validate : String → Option MCPTokenInfo) (now k : String)
    (info : MCPTokenInfo) (v : JVal)
    (hk : headerFalsy (some k) = false)
    (hv : validate k = some info)
    (hshape : parseRpcRequest v = none) :
    (mcp_handler reg validate now (some k) (.parsed v)).result = none ∧
    (mcp_handler reg validate now (some k) (.parsed v)).error.map JSONRPCError.code =
      some JSONRPC_INVALID_REQUEST ∧
    (mcp_handler reg validate now (some k) (.parsed v)).id = none := by
  refine ⟨?_, ?_, ?_⟩ <;> simp [mcp_handler, hk, hv, hshape]

/-- Claim C9 amended witness: the method-less body with id 7. -/
theorem C9_amended_invalid_shape_code_witness :
    (headerFalsy (some "k") = false) ∧
    ((fun _ : String => some (⟨"tok", ["*"]⟩ : MCPTokenInfo)) "k" =
      some ⟨"tok", ["*"]⟩) ∧
    (parseRpcRequest bodyNoMethod = none) ∧
    ((mcp_handler [] (fun _ => some ⟨"tok", ["*"]⟩) "T" (some "k")
        (.parsed bodyNoMethod)).result = none ∧
     (mcp_handler [] (fun _ => some ⟨"tok", ["*"]⟩) "T" (some "k")
        (.parsed bodyNoMethod)).error.map JSONRPCError.code =
       some JSONRPC_INVALID_REQUEST ∧
     (mcp_handler [] (fun _ => some ⟨"tok", ["*"]⟩) "T" (some "k")
        (.parsed bodyNoMethod)).id = none) :=
  ⟨rfl, rfl, rfl,
   C9_amended_invalid_shape_code [] (fun _ => some ⟨"tok", ["*"]⟩) "T" "k"
     ⟨"tok", ["*"]⟩ bodyNoMethod rfl rfl rfl⟩

end MCP
